import Mathlib

/-!
# StaffScheduler orchestrator-service: a shallow embedding

This file embeds the deterministic core of the StaffScheduler
orchestrator service (`orchestrator-service/app.py`,
`orchestrator-service/app_simple.py`, `orchestrator-service/processing.py`)
in Lean and proves properties of the embedded code.

Python regular-expression calls (`re.search`, `re.findall`) are embedded
through a small executable backtracking engine over a regex syntax tree;
each pattern of the source is transcribed literally into that syntax.
The engine follows Python `re` semantics for the constructs those
patterns use: leftmost match, left-biased alternation, greedy
quantifiers, capture groups, and `IGNORECASE` (encoded in the pattern by
case-insensitive character classes and literals).
-/

namespace StaffScheduler

/-! ## Python string helpers -/

/-- Run of `needle` starting at the head of `hay`. -/
def listStarts : List Char → List Char → Bool
  | [], _ => true
  | _ :: _, [] => false
  | a :: as, b :: bs => a == b && listStarts as bs

/-- Contiguous-substring test on character lists. -/
def listIsSub (n : List Char) : List Char → Bool
  | [] => n.isEmpty
  | c :: rest => listStarts n (c :: rest) || listIsSub n rest

/-- Python `a in b` on strings (substring containment). -/
def isSub (a b : String) : Bool := listIsSub a.data b.data

/-- Python `str.lower()` (ASCII). -/
def pyLower (s : String) : String := String.mk (s.data.map Char.toLower)

/-- Python `str.strip()`: whitespace removed from both ends. -/
def pyStrip (s : String) : String :=
  String.mk (((s.data.dropWhile Char.isWhitespace).reverse.dropWhile
    Char.isWhitespace).reverse)

/-- Worker for `pyWords`: split on whitespace runs, dropping empties. -/
def pyWordsGo : List Char → List Char → List String
  | [], acc => if acc.isEmpty then [] else [String.mk acc.reverse]
  | c :: rest, acc =>
    if c.isWhitespace then
      if acc.isEmpty then pyWordsGo rest []
      else String.mk acc.reverse :: pyWordsGo rest []
    else pyWordsGo rest (c :: acc)

/-- Python `str.split()` with no separator: split on whitespace runs,
dropping empty fields. -/
def pyWords (s : String) : List String := pyWordsGo s.data []

/-- Python `str.capitalize()`: first character upper-cased, rest lower. -/
def pyCapitalize (s : String) : String :=
  match s.data with
  | [] => ""
  | c :: rest => String.mk (c.toUpper :: rest.map Char.toLower)

/-- Python `str.title()`: a letter is upper-cased when the preceding
character is not a letter, lower-cased otherwise. -/
def pyTitle (s : String) : String :=
  let step : (List Char × Bool) → Char → (List Char × Bool) := fun acc c =>
    if c.isAlpha then ((if acc.2 then c.toLower else c.toUpper) :: acc.1, true)
    else (c :: acc.1, false)
  String.mk ((s.data.foldl step ([], false)).1.reverse)

/-- Python `int()` on a non-empty digit string. -/
def natOfDigits (s : String) : Nat :=
  s.data.foldl (fun n c => n * 10 + (c.toNat - '0'.toNat)) 0

/-- Python truthiness of an optional string (`None` and `""` are falsy). -/
def truthyS : Option String → Bool
  | none => false
  | some s => s ≠ ""

/-- Python `a or b` for an optional string `a` and default `b`. -/
def pyOrS (a : Option String) (b : String) : String :=
  if truthyS a then a.getD "" else b

/-- Embeds `f"{x:02d}"` for the day/month fields. -/
def pad2 (n : Nat) : String :=
  if n < 10 then "0" ++ toString n else toString n

/-- Embeds `f"{year}-{month:02d}-{day:02d}"`. -/
def fmtDate (year month day : Nat) : String :=
  toString year ++ "-" ++ pad2 month ++ "-" ++ pad2 day

/-! ## A small regex engine (Python `re` subset) -/

/-- Regex syntax tree for the patterns appearing in the source. -/
inductive RE where
  | eps
  | cls (p : Char → Bool)
  | seq (a b : RE)
  | alt (a b : RE)
  | star (a : RE)
  | opt (a : RE)
  | group (i : Nat) (a : RE)
  | eol

namespace RE

/-- Embeds `a+` as `a a*` (greedy). -/
def plus (a : RE) : RE := .seq a (.star a)

/-- Case-sensitive literal string. -/
def lstr (s : String) : RE :=
  s.data.foldr (fun c acc => RE.seq (.cls (fun x => x == c)) acc) .eps

/-- Case-insensitive literal string (the `re.IGNORECASE` reading). -/
def istr (s : String) : RE :=
  s.data.foldr (fun c acc => RE.seq (.cls (fun x => x.toLower == c.toLower)) acc) .eps

/-- Right-nested sequence of several parts. -/
def seqs : List RE → RE
  | [] => .eps
  | [r] => r
  | r :: rest => .seq r (seqs rest)

/-- Left-biased alternation of several parts. -/
def alts : List RE → RE
  | [] => .eps
  | [r] => r
  | r :: rest => .alt r (alts rest)

end RE

/-- Pattern `\s` (ASCII whitespace). -/
def sCls : RE := .cls fun c => c == ' ' || c == '\t' || c == '\n' || c == '\r'

/-- Pattern `\d`. -/
def dCls : RE := .cls Char.isDigit

/-- Pattern `[A-Z]`. -/
def upCls : RE := .cls Char.isUpper

/-- Pattern `[a-z]`. -/
def lowCls : RE := .cls Char.isLower

/-- Pattern `[A-Za-z]`; also the reading of `[A-Z]`/`[a-z]` under `re.IGNORECASE`. -/
def alphaCls : RE := .cls Char.isAlpha

/-- Captures: group index paired with matched text, most recent first. -/
abbrev Caps := List (Nat × String)

/-- Look up a group's captured text. -/
def cap (caps : Caps) (i : Nat) : Option String :=
  (caps.find? (fun p => p.1 == i)).map (fun p => p.2)

/-- Backtracking matcher in continuation-passing style.  `fuel` bounds the
recursion depth (pattern nesting plus quantifier iterations); every pattern
below runs well inside the bound used by `reSearch`. -/
def reM : Nat → RE → List Char → Caps →
    (List Char → Caps → Option (Caps × List Char)) → Option (Caps × List Char)
  | 0, _, _, _, _ => none
  | fuel + 1, r, cs, caps, k =>
    match r with
    | .eps => k cs caps
    | .eol => if cs.isEmpty then k cs caps else none
    | .cls p =>
      match cs with
      | [] => none
      | c :: rest => if p c then k rest caps else none
    | .seq a b => reM fuel a cs caps (fun cs1 caps1 => reM fuel b cs1 caps1 k)
    | .alt a b =>
      match reM fuel a cs caps k with
      | some res => some res
      | none => reM fuel b cs caps k
    | .opt a =>
      match reM fuel a cs caps k with
      | some res => some res
      | none => k cs caps
    | .star a =>
      match reM fuel a cs caps (fun cs1 caps1 =>
          if cs1.length < cs.length then reM fuel (.star a) cs1 caps1 k else none) with
      | some res => some res
      | none => k cs caps
    | .group i a =>
      reM fuel a cs caps (fun cs1 caps1 =>
        k cs1 ((i, String.mk (cs.take (cs.length - cs1.length))) :: caps1))

/-- Try to match `r` at the head of `cs`; returns captures and length consumed. -/
def reAt (r : RE) (cs : List Char) : Option (Caps × Nat) :=
  match reM 100000 r cs [] (fun rest caps => some (caps, rest)) with
  | some (caps, rest) => some (caps, cs.length - rest.length)
  | none => none

/-- Embeds `re.search` a character list: first (leftmost) match, with its start
offset and consumed length. -/
def reSearchList : List Char → RE → Option (Caps × Nat × Nat)
  | cs, r =>
    match reAt r cs with
    | some (caps, len) => some (caps, 0, len)
    | none =>
      match cs with
      | [] => none
      | _ :: rest =>
        match reSearchList rest r with
        | some (caps, st, len) => some (caps, st + 1, len)
        | none => none

/-- Embeds `re.search`: captures of the first match, if any. -/
def reSearch (r : RE) (s : String) : Option Caps :=
  (reSearchList s.data r).map (fun p => p.1)

/-- Embeds `re.findall` driver: after a match the scan resumes at its end
(one character further when the match is empty). -/
def reFindAllGo : Nat → List Char → RE → List Caps
  | 0, _, _ => []
  | n + 1, cs, r =>
    match reSearchList cs r with
    | none => []
    | some (caps, st, len) =>
      caps :: reFindAllGo n (cs.drop (st + max len 1)) r

/-- Embeds `re.findall`, returning the capture sets of all matches. -/
def reFindAll (r : RE) (s : String) : List Caps :=
  reFindAllGo (s.length + 1) s.data r

/-- Embeds `re.findall` for a pattern with a single capturing group (Python
returns the list of group-1 strings). -/
def reFindAll1 (r : RE) (s : String) : List String :=
  (reFindAll r s).map (fun caps => (cap caps 1).getD "")

/-! ## Month-name tables -/

/-- Embeds `month_names` dict of `app_simple.parse_scheduling_command` (all keys
lower-case), also the month table behind `datetime.strptime(_, "%B")`,
which compares month names case-insensitively. -/
def monthNum : String → Option Nat
  | "january" => some 1
  | "february" => some 2
  | "march" => some 3
  | "april" => some 4
  | "may" => some 5
  | "june" => some 6
  | "july" => some 7
  | "august" => some 8
  | "september" => some 9
  | "october" => some 10
  | "november" => some 11
  | "december" => some 12
  | _ => none

/-- Embeds `datetime.strptime(s, "%B").month`, as an `Option` (raising
`ValueError` is `none`). -/
def strptimeMonth (s : String) : Option Nat := monthNum (pyLower s)

/-- The month-name alternation used inside the date regexes, in source
order (`january|february|...|december`), matched case-insensitively. -/
def monthsAlt : RE :=
  RE.alts [RE.istr "january", RE.istr "february", RE.istr "march", RE.istr "april",
    RE.istr "may", RE.istr "june", RE.istr "july", RE.istr "august",
    RE.istr "september", RE.istr "october", RE.istr "november", RE.istr "december"]

/-- Pattern `(?:st|nd|rd|th)?`. -/
def ordSuffixOpt : RE :=
  .opt (RE.alts [RE.istr "st", RE.istr "nd", RE.istr "rd", RE.istr "th"])

/-- Pattern `(\d{1,2})`: greedy one-or-two digits, captured. -/
def day12Grp : RE := .group 1 (.alt (.seq dCls dCls) dCls)

/-- Pattern `\s+`. -/
def sPlus : RE := RE.plus sCls

/-- Pattern `\s*`. -/
def sStar : RE := .star sCls

/-- Pattern `(?:hrs?|hours?)` under `IGNORECASE`. -/
def hrsAlt : RE :=
  .alt (.seq (RE.istr "hr") (.opt (RE.istr "s")))
       (.seq (RE.istr "hour") (.opt (RE.istr "s")))

/-! ## `app_simple.py` — `parse_scheduling_command` patterns -/

/-- Pattern `r'(\d+)\s*(?:hrs?|hours?)\s*'` (IGNORECASE). -/
def simpleHoursP1 : RE := RE.seqs [.group 1 (RE.plus dCls), sStar, hrsAlt, sStar]

/-- Pattern `r'(\d+)\s*h\s*'` (IGNORECASE). -/
def simpleHoursP2 : RE := RE.seqs [.group 1 (RE.plus dCls), sStar, RE.istr "h", sStar]

/-- Pattern `r'for\s+(\d+)\s+hours?'` (IGNORECASE). -/
def simpleHoursP3 : RE :=
  RE.seqs [RE.istr "for", sPlus, .group 1 (RE.plus dCls), sPlus,
    RE.istr "hour", .opt (RE.istr "s")]

/-- Date pattern 1 (day month year?, IGNORECASE):
`(\d{1,2})(?:st|nd|rd|th)?\s+(january|...|december)(?:\s+(\d{4}))?`. -/
def simpleDateP1 : RE :=
  RE.seqs [day12Grp, ordSuffixOpt, sPlus, .group 2 monthsAlt,
    .opt (.seq sPlus (.group 3 (RE.seqs [dCls, dCls, dCls, dCls])))]

/-- Date pattern 2 (month day year?, IGNORECASE):
`(january|...|december)\s+(\d{1,2})(?:st|nd|rd|th)?(?:\s+(\d{4}))?`. -/
def simpleDateP2 : RE :=
  RE.seqs [.group 1 monthsAlt, sPlus, .group 2 (.alt (.seq dCls dCls) dCls),
    ordSuffixOpt, .opt (.seq sPlus (.group 3 (RE.seqs [dCls, dCls, dCls, dCls])))]

/-- Project pattern 1 (IGNORECASE, where `[A-Z]`/`[a-zA-Z]` match any letter):
`(?:for|on|to)\s+(?:project\s+)?([A-Z][a-zA-Z]+)(?:\s+for|\s+on|\s|$)`. -/
def simpleProjP1 : RE :=
  RE.seqs [RE.alts [RE.istr "for", RE.istr "on", RE.istr "to"], sPlus,
    .opt (.seq (RE.istr "project") sPlus),
    .group 1 (.seq alphaCls (RE.plus alphaCls)),
    RE.alts [.seq sPlus (RE.istr "for"), .seq sPlus (RE.istr "on"), sCls, .eol]]

/-- Project pattern 2 (IGNORECASE): `project\s+([A-Z][a-zA-Z]+)`. -/
def simpleProjP2 : RE :=
  RE.seqs [RE.istr "project", sPlus, .group 1 (.seq alphaCls (RE.plus alphaCls))]

/-- Project pattern 3 (IGNORECASE): `(?:for|on)\s+([A-Z][a-zA-Z]+)(?:\s+for)`. -/
def simpleProjP3 : RE :=
  RE.seqs [RE.alts [RE.istr "for", RE.istr "on"], sPlus,
    .group 1 (.seq alphaCls (RE.plus alphaCls)), sPlus, RE.istr "for"]

/-- A capitalized word `[A-Z][a-z]+` (case-sensitive). -/
def capWord : RE := .seq upCls (RE.plus lowCls)

/-- Staff pattern 1 (case-sensitive):
`for\s+([A-Z][a-z]+(?:\s+[A-Z][a-z]+)+)(?:\s+on)`. -/
def simpleNameP1 : RE :=
  RE.seqs [RE.lstr "for", sPlus,
    .group 1 (.seq capWord (RE.plus (.seq sPlus capWord))),
    sPlus, RE.lstr "on"]

/-- Staff pattern 2 (case-sensitive):
`(?:schedule|book)\s+([A-Z][a-z]+(?:\s+[A-Z][a-z]+)+)`. -/
def simpleNameP2 : RE :=
  RE.seqs [.alt (RE.lstr "schedule") (RE.lstr "book"), sPlus,
    .group 1 (.seq capWord (RE.plus (.seq sPlus capWord)))]

/-- Staff pattern 3 (case-sensitive):
`([A-Z][a-z]+\s+[A-Z][a-z]+)(?:\s+on\s+)`. -/
def simpleNameP3 : RE :=
  RE.seqs [.group 1 (RE.seqs [capWord, sPlus, capWord]), sPlus, RE.lstr "on", sPlus]

/-! ## `app.py` — `parse_booking_command` patterns -/

/-- Pattern `r"(?:book\s+)?([A-Z][a-z]+(?:\s+[A-Z][a-z]+)*)"` (case-sensitive). -/
def bookingStaffP : RE :=
  RE.seqs [.opt (.seq (RE.lstr "book") sPlus),
    .group 1 (.seq capWord (.star (.seq sPlus capWord)))]

/-- Pattern `r"(?:project|on)\s+([A-Z][a-z]+(?:\s+[A-Z][a-z]+)*)"` (IGNORECASE). -/
def bookingProjP : RE :=
  RE.seqs [.alt (RE.istr "project") (RE.istr "on"), sPlus,
    .group 1 (.seq (.seq alphaCls (RE.plus alphaCls))
      (.star (RE.seqs [sPlus, alphaCls, RE.plus alphaCls])))]

/-- Pattern `r"(\d+)\s*(?:hrs?|hours?)"` (IGNORECASE). -/
def bookingHoursP : RE := RE.seqs [.group 1 (RE.plus dCls), sStar, hrsAlt]

/-- Pattern `r"(\d{1,2})(?:st|nd|rd|th)?\s+([A-Za-z]+)"` (IGNORECASE). -/
def bookingDateP : RE :=
  RE.seqs [day12Grp, ordSuffixOpt, sPlus, .group 2 (RE.plus alphaCls)]

/-! ## `app.py` — `enhanced_stub_orchestrator` patterns -/

/-- Pattern `(\d{1,2})(?:st|nd|rd|th)?\s+(January|...|December)` (IGNORECASE). -/
def enhDateP : RE := RE.seqs [day12Grp, ordSuffixOpt, sPlus, .group 2 monthsAlt]

/-- Pattern `book\s+([A-Z][a-z]+(?:\s+[A-Z][a-z]+)?)` (IGNORECASE). -/
def enhStaffP : RE :=
  RE.seqs [RE.istr "book", sPlus,
    .group 1 (.seq (.seq alphaCls (RE.plus alphaCls))
      (.opt (RE.seqs [sPlus, alphaCls, RE.plus alphaCls])))]

/-- Pattern `(?:book\s+(?:the\s+)?)?([A-Za-z]+)\s+department` (IGNORECASE). -/
def enhDeptP : RE :=
  RE.seqs [.opt (RE.seqs [RE.istr "book", sPlus, .opt (.seq (RE.istr "the") sPlus)]),
    .group 1 (RE.plus alphaCls), sPlus, RE.istr "department"]

/-- Pattern `(?:project|on project)\s+([A-Z][a-z]+(?:\s+[A-Z][a-z]+)?)` (IGNORECASE). -/
def enhProjP : RE :=
  RE.seqs [.alt (RE.istr "project") (RE.istr "on project"), sPlus,
    .group 1 (.seq (.seq alphaCls (RE.plus alphaCls))
      (.opt (RE.seqs [sPlus, alphaCls, RE.plus alphaCls])))]

/-- Pattern `rf"{re.escape(project_name)}\s+for\s+(\d+)\s*(?:hrs?|hours?)"`
(IGNORECASE); `re.escape` makes the project name a literal. -/
def enhProjHoursP (projectName : String) : RE :=
  RE.seqs [RE.istr projectName, sPlus, RE.istr "for", sPlus,
    .group 1 (RE.plus dCls), sStar, hrsAlt]

/-! ## Data model

Python dicts with a known key set are embedded as structures whose
fields are `Option`-valued when the source may leave the key absent
(`None`-valued keys and absent keys are identified; no claim below
distinguishes them).  Hours are integers. -/

/-- One availability record returned by `GET /api/availability?date=`. -/
structure AvailEntry where
  staffId : Option String := none
  staffName : Option String := none
  assignedHours : Option Int := none
  availableHours : Option Int := none
deriving Repr, DecidableEq

/-- A match as built by the shift-matching stages. -/
structure SchedMatch where
  staffId : Option String := none
  staffName : Option String := none
  projectId : Option String := none
  projectName : Option String := none
  assignedHours : Option Int := none
  date : Option String := none
deriving Repr, DecidableEq

/-- A notification as built by `notifier_logic`. -/
structure Notification where
  staffId : Option String := none
  staffName : Option String := none
  assignedHours : Option Int := none
  date : Option String := none
  message : String := ""
deriving Repr, DecidableEq

/-- A staff record from `GET /api/staff` (`id` and `name` guaranteed by
the backend contract; `department` read with `.get("department", "")`). -/
structure StaffRec where
  id : String
  name : String
  department : Option String := none
deriving Repr, DecidableEq

/-- A project record from `GET /api/projects`. -/
structure ProjectRec where
  id : String
  name : String
deriving Repr, DecidableEq

/-- The backend collaborator used by the stages: availability by date,
plus the staff and project listings. -/
structure Backend where
  availability : String → List AvailEntry
  staff : List StaffRec
  projects : List ProjectRec

/-- The context dict threaded through the pipeline stages.  Every
collection-valued key is read in the source with `context.get(key, [])`
(sometimes followed by `or []`), so an absent key and an empty list are
indistinguishable there; they are both embedded as `[]`. -/
structure Context where
  date : Option String := none
  query : Option String := none
  requested_staff : List String := []
  requested_departments : List String := []
  requested_projects : List String := []
  requested_hours : Int := 8
  availability : List AvailEntry := []
  «matches» : List SchedMatch := []
  notifications : List Notification := []
  resolvedMatches : List SchedMatch := []
deriving Repr, DecidableEq

/-- One entry of the global audit log: the context snapshot plus the
UTC timestamp added by `audit_logger_logic`. -/
structure AuditEntry where
  ctx : Context
  timestamp : String
deriving Repr, DecidableEq

/-- Embeds `OrchestrationInput` (the request body); only the fields the
embedded code reads. -/
structure OrchestrationInput where
  date : Option String := none
  query : Option String := none
  staffIds : Option (List String) := none
  projectIds : Option (List String) := none
  hours : Option Int := none
  mode : Option String := some "ask"
  intent : Option String := none
deriving Repr, DecidableEq

/-- Python `f"{v}"` of an optional string (`None` prints as `"None"`). -/
def pyShowS : Option String → String
  | some s => s
  | none => "None"

/-- Python `f"{v}"` of an optional int. -/
def pyShowI : Option Int → String
  | some i => toString i
  | none => "None"

/-! ## Pipeline stages (`app.py`) -/

/-- Embeds `availability_logic`: with no (falsy) date the stage short-circuits
to an empty list, otherwise it fetches `availability?date=`. -/
def availability_logic (b : Backend) (ctx : Context) : List AvailEntry :=
  match ctx.date with
  | none => []
  | some d => if d = "" then [] else b.availability d

/-- Embeds `shift_logic` (baseline ShiftMatcher): one match per availability
entry, `assignedHours := entry.get('availableHours', 0)`, staff name
copied when present, the context date attached when not `None`. -/
def shift_logic (ctx : Context) : List SchedMatch :=
  ctx.availability.map (fun entry =>
    { staffId := entry.staffId
      staffName := entry.staffName
      assignedHours := some (entry.availableHours.getD 0)
      date := ctx.date })

/-- Embeds `notifier_logic`: one notification per match in `context['matches']`;
`staff_name = match.get('staffName', staff_id)`, and the message is
composed from the match's name and hours and the context's `date`. -/
def notifier_logic (ctx : Context) : List Notification :=
  ctx.«matches».map (fun m =>
    let staffName : Option String :=
      match m.staffName with
      | some n => some n
      | none => m.staffId
    { staffId := m.staffId
      staffName := staffName
      assignedHours := m.assignedHours
      date := ctx.date
      message := pyShowS staffName ++ " assigned " ++ pyShowI m.assignedHours ++
        " hours on " ++ pyShowS ctx.date })

/-- Embeds `conflict_resolver_logic`: keep only matches with
`match.get('assignedHours', 0) > 0`. -/
def conflict_resolver_logic (ctx : Context) : List SchedMatch :=
  ctx.«matches».filter (fun m => 0 < m.assignedHours.getD 0)

/-- Embeds `audit_logger_logic`, value-level view: append the context snapshot
plus a timestamp to the global audit list (the reference-level view used
for the immutability claim is `audit_logger_step` below). -/
def audit_logger_logic (log : List AuditEntry) (ctx : Context) (ts : String) :
    List AuditEntry :=
  log ++ [{ ctx := ctx, timestamp := ts }]

/-- Embeds `_StubOrchestrator.run`: the sequential stub pipeline
(availability, shift, notifier, conflict resolver, audit logger, in the
source's order), threading the global audit log. -/
def stub_run (b : Backend) (ts : String) (log : List AuditEntry) (ctx0 : Context) :
    Context × List AuditEntry :=
  let ctx1 := { ctx0 with availability := availability_logic b ctx0 }
  let ctx2 := { ctx1 with «matches» := shift_logic ctx1 }
  let ctx3 := { ctx2 with notifications := notifier_logic ctx2 }
  let ctx4 := { ctx3 with resolvedMatches := conflict_resolver_logic ctx3 }
  let log1 := audit_logger_logic log ctx4 ts
  (ctx4, log1)

/-! ## `app.py` — enhanced command pipeline -/

/-- Python `.split(' for')[0]`: the part before the first occurrence of
the separator (the whole string when the separator does not occur). -/
def takeUntilSub (sep : List Char) : List Char → List Char
  | [] => []
  | c :: rest => if listStarts sep (c :: rest) then [] else c :: takeUntilSub sep rest

/-- Embeds `s.split(' for')[0]`. -/
def splitForHead (s : String) : String := String.mk (takeUntilSub " for".data s.data)

/-- The query-parsing block of `enhanced_stub_orchestrator` (run only
for a non-empty query): date, staff, departments, projects and hours
extracted into the context. -/
def enhanced_parse (year : Nat) (query : String) (ctx : Context) : Context :=
  let ctx1 :=
    match reSearch enhDateP query with
    | some caps =>
      let day := natOfDigits ((cap caps 1).getD "")
      match strptimeMonth (pyCapitalize ((cap caps 2).getD "")) with
      | some month => { ctx with date := some (fmtDate year month day) }
      | none => ctx
    | none => ctx
  let ctx2 := { ctx1 with
    requested_staff := (reFindAll1 enhStaffP query).map pyStrip }
  let ctx3 := { ctx2 with
    requested_departments := (reFindAll1 enhDeptP query).map (fun d => pyLower (pyStrip d)) }
  let ctx4 := { ctx3 with
    requested_projects := (reFindAll1 enhProjP query).map (fun n => splitForHead (pyStrip n)) }
  match reFindAll1 bookingHoursP query with
  | [] => ctx4
  | h :: _ => { ctx4 with requested_hours := (natOfDigits h : Int) }

/-- Embeds `enhanced_shift_logic`: resolve requested staff (by substring either
way), departments (substring on the department field) and projects, then
emit the staff × project cross product with per-project hour overrides;
with no staff/department constraint fall back to the availability-based
baseline; otherwise emit nothing. -/
def enhanced_shift_logic (b : Backend) (ctx : Context) : List SchedMatch :=
  let staff_data := b.staff
  let project_data := b.projects
  let target1 : List String := ctx.requested_staff.foldl (fun acc nm =>
    match staff_data.find? (fun s =>
        isSub (pyLower nm) (pyLower s.name) || isSub (pyLower s.name) (pyLower nm)) with
    | some s => acc ++ [s.id]
    | none => acc) []
  let target_staff_ids : List String := ctx.requested_departments.foldl (fun acc dept =>
    (staff_data.filter (fun s => isSub dept (pyLower (s.department.getD "")))).foldl
      (fun acc2 s => if acc2.contains s.id then acc2 else acc2 ++ [s.id]) acc) target1
  let target_project_ids : List String := ctx.requested_projects.foldl (fun acc nm =>
    match project_data.find? (fun p =>
        isSub (pyLower nm) (pyLower p.name) || isSub (pyLower p.name) (pyLower nm)) with
    | some p => acc ++ [p.id]
    | none => acc) []
  if target_staff_ids ≠ [] ∧ target_project_ids ≠ [] then
    let query := ctx.query.getD ""
    let project_hours : List (String × Int) := ctx.requested_projects.foldl
      (fun acc pname =>
        match reSearch (enhProjHoursP pname) query with
        | some caps => acc ++ [(pname, (natOfDigits ((cap caps 1).getD "") : Int))]
        | none => acc) []
    target_staff_ids.foldl (fun acc staff_id =>
      let staff_name := ((staff_data.find? (fun s => s.id == staff_id)).map
        (fun s => s.name)).getD staff_id
      acc ++ target_project_ids.map (fun project_id =>
        let project_name := ((project_data.find? (fun p => p.id == project_id)).map
          (fun p => p.name)).getD project_id
        let hours := ((project_hours.find? (fun ph => ph.1 == project_name)).map
          (fun ph => ph.2)).getD ctx.requested_hours
        { staffId := some staff_id
          staffName := some staff_name
          projectId := some project_id
          projectName := some project_name
          assignedHours := some hours
          date := ctx.date })) []
  else if ctx.requested_staff = [] ∧ ctx.requested_departments = [] then
    ctx.availability.map (fun entry =>
      { staffId := entry.staffId
        staffName := entry.staffName
        assignedHours := some (entry.availableHours.getD 0)
        date := if truthyS ctx.date then ctx.date else none })
  else []

/-- Embeds `enhanced_stub_orchestrator`: seed the context from the payload,
parse a non-empty query, then run availability, enhanced shift,
notifier, conflict resolver and audit logger in the source's order.
`year`/`todayStr` stand for `datetime.now()`, `ts` for the audit
timestamp, `log` for the global audit list. -/
def enhanced_stub_orchestrator (b : Backend) (year : Nat) (todayStr ts : String)
    (log : List AuditEntry) (payload : OrchestrationInput) :
    Context × List AuditEntry :=
  let query := payload.query.getD ""
  let ctx0 : Context :=
    { date := some (pyOrS payload.date todayStr)
      query := some query
      requested_staff := []
      requested_departments := []
      requested_projects := []
      requested_hours := 8 }
  let ctx1 := if query ≠ "" then enhanced_parse year query ctx0 else ctx0
  let ctx2 := { ctx1 with availability := availability_logic b ctx1 }
  let ctx3 := { ctx2 with «matches» := enhanced_shift_logic b ctx2 }
  let ctx4 := { ctx3 with notifications := notifier_logic ctx3 }
  let ctx5 := { ctx4 with resolvedMatches := conflict_resolver_logic ctx4 }
  let log1 := audit_logger_logic log ctx5 ts
  (ctx5, log1)

/-! ## `app_simple.py` — `parse_scheduling_command` -/

/-- The `ParsedCommand` result of `parse_scheduling_command`. -/
structure ParsedCommand where
  staffNames : List String
  projectNames : List String
  hours : Int
  date : Option String
deriving Repr, DecidableEq

/-- The hours loop: first pattern (in source order) whose search hits
wins; default 8. -/
def parse_scheduling_hours (query : String) : Int :=
  match reSearch simpleHoursP1 query with
  | some caps => (natOfDigits ((cap caps 1).getD "") : Int)
  | none =>
    match reSearch simpleHoursP2 query with
    | some caps => (natOfDigits ((cap caps 1).getD "") : Int)
    | none =>
      match reSearch simpleHoursP3 query with
      | some caps => (natOfDigits ((cap caps 1).getD "") : Int)
      | none => 8

/-- The date loop of `parse_scheduling_command`: try the day-month
pattern, then the month-day pattern; a match whose day is outside
`1..31` does not set the date but lets the loop go on; the optional
4-digit year group overrides `datetime.now().year`. -/
def parse_scheduling_date (year : Nat) (query : String) : Option String :=
  let second : Option String :=
    match reSearch simpleDateP2 query with
    | some caps =>
      let month := monthNum (pyLower ((cap caps 1).getD ""))
      let day := natOfDigits ((cap caps 2).getD "")
      let y := match cap caps 3 with
        | some ys => natOfDigits ys
        | none => year
      match month with
      | some m => if 1 ≤ day ∧ day ≤ 31 then some (fmtDate y m day) else none
      | none => none
    | none => none
  match reSearch simpleDateP1 query with
  | some caps =>
    let day := natOfDigits ((cap caps 1).getD "")
    let month := monthNum (pyLower ((cap caps 2).getD ""))
    let y := match cap caps 3 with
      | some ys => natOfDigits ys
      | none => year
    match month with
    | some m => if 1 ≤ day ∧ day ≤ 31 then some (fmtDate y m day) else second
    | none => second
  | none => second

/-- The project-name loop: all three patterns contribute (no break); a
captured word is kept unless it is one of the excluded words, and is
title-cased. -/
def parse_scheduling_projects (query : String) : List String :=
  let excluded : List String := ["hours", "hour", "hrs", "may", "march"]
  let keep : String → Bool := fun w => w ≠ "" && !(excluded.contains (pyLower w))
  (((reFindAll1 simpleProjP1 query).filter keep).map pyTitle) ++
    (((reFindAll1 simpleProjP2 query).filter keep).map pyTitle) ++
    (((reFindAll1 simpleProjP3 query).filter keep).map pyTitle)

/-- The staff-name loop: all three patterns contribute; a captured
phrase is kept when it splits into at least two tokens. -/
def parse_scheduling_staff (query : String) : List String :=
  let keep : String → Bool := fun w => w ≠ "" && 2 ≤ (pyWords w).length
  ((reFindAll1 simpleNameP1 query).filter keep) ++
    ((reFindAll1 simpleNameP2 query).filter keep) ++
    ((reFindAll1 simpleNameP3 query).filter keep)

/-- Embeds `parse_scheduling_command` (`app_simple.py`); `year` stands for
`datetime.now().year`. -/
def parse_scheduling_command (year : Nat) (query : String) : ParsedCommand :=
  { staffNames := parse_scheduling_staff query
    projectNames := parse_scheduling_projects query
    hours := parse_scheduling_hours query
    date := parse_scheduling_date year query }

/-! ## `app_simple.py` — name resolution -/

/-- Embeds `find_staff_by_name`: a case-insensitive exact pass over the whole
list first, then a substring pass (either direction), then `None`. -/
def find_staff_by_name (staff_name : String) (all_staff : List StaffRec) :
    Option StaffRec :=
  let lower := pyLower staff_name
  match all_staff.find? (fun s => pyLower s.name == lower) with
  | some s => some s
  | none =>
    all_staff.find? (fun s =>
      isSub lower (pyLower s.name) || isSub (pyLower s.name) lower)

/-- Embeds `find_project_by_name`: same two passes over projects. -/
def find_project_by_name (project_name : String) (all_projects : List ProjectRec) :
    Option ProjectRec :=
  let lower := pyLower project_name
  match all_projects.find? (fun p => pyLower p.name == lower) with
  | some p => some p
  | none =>
    all_projects.find? (fun p =>
      isSub lower (pyLower p.name) || isSub (pyLower p.name) lower)

/-! ## `app.py` — `parse_booking_command` -/

/-- The `parsed` block of `parse_booking_command`'s return value. -/
structure BookingParsed where
  staffNames : List String
  projectNames : List String
  hoursList : List Int
  date : String
deriving Repr, DecidableEq

/-- The extraction part of `parse_booking_command`: staff and project
candidates, the hours list, and the date (which falls back to
`payload.date or datetime.now().strftime("%Y-%m-%d")` when the pattern
misses or the month name is not a full month name). -/
def parse_booking_extract (payloadDate : Option String) (today : String)
    (year : Nat) (query : String) : BookingParsed :=
  let staffNames := ((reFindAll1 bookingStaffP query).map pyStrip).filter
    (fun n => (pyWords n).length ≤ 3)
  let projectNames := (reFindAll1 bookingProjP query).map pyStrip
  let hoursList := (reFindAll1 bookingHoursP query).map
    (fun h => (natOfDigits h : Int))
  let date :=
    match reSearch bookingDateP query with
    | some caps =>
      let day := natOfDigits ((cap caps 1).getD "")
      match strptimeMonth (pyCapitalize ((cap caps 2).getD "")) with
      | some month => fmtDate year month day
      | none => pyOrS payloadDate today
    | none => pyOrS payloadDate today
  { staffNames := staffNames
    projectNames := projectNames
    hoursList := hoursList
    date := date }

/-- The per-name staff lookup inside `parse_booking_command`: the first
staff record matching by case-insensitive substring in either direction
(no exact-match pass). -/
def booking_resolve_staff (staff_name : String) (staff_data : List StaffRec) :
    Option StaffRec :=
  staff_data.find? (fun s =>
    isSub (pyLower staff_name) (pyLower s.name) ||
      isSub (pyLower s.name) (pyLower staff_name))

/-- The per-name project lookup inside `parse_booking_command`. -/
def booking_resolve_project (project_name : String) (project_data : List ProjectRec) :
    Option ProjectRec :=
  project_data.find? (fun p =>
    isSub (pyLower project_name) (pyLower p.name) ||
      isSub (pyLower p.name) (pyLower project_name))

/-! ## `app.py` — `process_assignments` (Assignment Writer) -/

/-- The body sent to `POST /api/assignments`. -/
structure AssignmentData where
  staffId : String
  projectId : String
  date : String
  hours : Int
deriving Repr, DecidableEq

/-- The result dict handed to `process_assignments` (only the keys it
reads). -/
structure WriterInput where
  resolvedMatches : Option (List SchedMatch) := none
  «matches» : Option (List SchedMatch) := none

/-- Embeds `matches = result.get("resolvedMatches", []); if not matches:
matches = result.get("matches", [])`. -/
def writer_matches (r : WriterInput) : List SchedMatch :=
  let ms := r.resolvedMatches.getD []
  if ms.isEmpty then r.«matches».getD [] else ms

/-- The skip condition: `not staff_id or not project_id or not date or
assigned_hours <= 0` (absent and empty-string values are falsy). -/
def writer_valid (m : SchedMatch) : Bool :=
  truthyS m.staffId && truthyS m.projectId && truthyS m.date &&
    (0 < m.assignedHours.getD 0)

/-- The assignment payload built for a valid match. -/
def writer_data (m : SchedMatch) : AssignmentData :=
  { staffId := m.staffId.getD ""
    projectId := m.projectId.getD ""
    date := m.date.getD ""
    hours := m.assignedHours.getD 0 }

/-- The per-match loop of `process_assignments`.  `create k` is the
backend's answer to the `k`-th issued `POST /api/assignments` call; an
`Except.error` is the exception caught by the per-match
`try`/`except`.  Returns the list of payloads sent and
`assignments_created`. -/
def process_assignments_loop (create : Nat → Except String Unit) :
    List SchedMatch → Nat → List AssignmentData × Nat
  | [], _ => ([], 0)
  | m :: rest, k =>
    if writer_valid m then
      let created := match create k with
        | .ok _ => 1
        | .error _ => 0
      let r := process_assignments_loop create rest (k + 1)
      (writer_data m :: r.1, created + r.2)
    else
      process_assignments_loop create rest k

/-- Embeds `process_assignments`: extract the match list and run the loop.  The
whole body sits in an outer `try`/`except` that only logs, so the
function always returns (it is total here by construction, mirroring
that no exception escapes). -/
def process_assignments (create : Nat → Except String Unit) (r : WriterInput) :
    List AssignmentData × Nat :=
  process_assignments_loop create (writer_matches r) 0

/-! ## `app.py` — audit logger, reference-level view

`audit_logger_logic` archives `dict(context)`: a new top-level table
with the same bindings.  To reason about Python's reference semantics,
values are split into immutable primitives and references into a heap of
mutable list objects; `dict()` copies the bindings but not the heap
objects behind them. -/

/-- A Python value as stored in a context dict: an immutable primitive,
or a reference to a mutable list object on the heap. -/
inductive PVal where
  | prim (s : String)
  | listRef (addr : Nat)
deriving Repr, DecidableEq

/-- A context dict: top-level key/value bindings. -/
abbrev PyDict := List (String × PVal)

/-- The heap of mutable list objects, indexed by address. -/
abbrev PyHeap := List (List PVal)

/-- Embeds `dict(context)`: a fresh top-level table with identical bindings;
reference values still point at the same heap objects (shallow copy). -/
def dictShallowCopy (d : PyDict) : PyDict := d

/-- Embeds `d[k] = v`. -/
def dictSet (d : PyDict) (k : String) (v : PVal) : PyDict :=
  if d.any (fun p => p.1 == k) then
    d.map (fun p => if p.1 == k then (k, v) else p)
  else d ++ [(k, v)]

/-- One call of `audit_logger_logic`: append
`dict(context) ∪ {timestamp}` to the global audit list. -/
def audit_logger_step (log : List PyDict) (ctx : PyDict) (ts : String) :
    List PyDict :=
  log ++ [dictSet (dictShallowCopy ctx) "timestamp" (.prim ts)]

/-- N successive `audit_logger_logic` calls in order. -/
def audit_logger_calls (log : List PyDict) : List (PyDict × String) → List PyDict
  | [] => log
  | (ctx, ts) :: rest => audit_logger_calls (audit_logger_step log ctx ts) rest

/-- Read a heap list object. -/
def heapGet (h : PyHeap) (a : Nat) : List PVal := (h.get? a).getD []

/-- In-place mutation of a heap list object (e.g. `lst.append(x)` through
any alias). -/
def heapSet (h : PyHeap) (a : Nat) (v : List PVal) : PyHeap := h.set a v

/-- What an audit entry's key shows when its value is followed through
the heap (the contents one sees when reading the entry later). -/
def derefKey (h : PyHeap) (d : PyDict) (k : String) : Option (List PVal) :=
  match d.find? (fun p => p.1 == k) with
  | some (_, .listRef a) => some (heapGet h a)
  | _ => none

/-! ## `processing.py` — `validate_pipeline_output` -/

/-- A JSON-like value for the pipeline result payload. -/
inductive JVal where
  | null
  | str (s : String)
  | num (n : Int)
  | arr (xs : List JVal)
  | obj (fields : List (String × JVal))

/-- The pipeline result: a bare string (accepted as-is) or a dict. -/
inductive PipeOut where
  | str (s : String)
  | obj (fields : List (String × JVal))

/-- Embeds `key in result`. -/
def hasKey (d : List (String × JVal)) (k : String) : Bool :=
  d.any (fun p => p.1 == k)

/-- Embeds `result.get(k)`. -/
def getKey (d : List (String × JVal)) (k : String) : Option JVal :=
  (d.find? (fun p => p.1 == k)).map (fun p => p.2)

/-- The five keys required of a stub-pipeline command/cron result. -/
def requiredKeys : List String :=
  ["availability", "matches", "notifications", "resolvedMatches", "auditLog"]

/-- Embeds `validate_pipeline_output`: `Except.error` is the raised
`HTTPException`.  Branches in source order: bare strings pass; dicts
with an `error` key pass; dicts with `response`/`content` take the
ask-mode branch (whose inner re-check cannot fire); dicts with
`USE_CREW`/`queryIntent`/`data`/`parsed` pass with no shape check;
otherwise the five stub-pipeline keys are demanded and each entry of
`resolvedMatches` must carry `staffId` and `assignedHours` (iterating a
non-list or probing a non-dict is a `TypeError`, also an error here). -/
def validate_pipeline_output (r : PipeOut) : Except String Unit :=
  match r with
  | .str _ => .ok ()
  | .obj d =>
    if hasKey d "error" then .ok ()
    else if hasKey d "response" || hasKey d "content" then
      if !(hasKey d "response" || hasKey d "content") then
        .error "Ask mode response must have either a response or content field"
      else .ok ()
    else if hasKey d "USE_CREW" || hasKey d "queryIntent" || hasKey d "data" ||
        hasKey d "parsed" then .ok ()
    else
      let missing := requiredKeys.filter (fun k => !hasKey d k)
      if !missing.isEmpty then
        .error ("Pipeline output missing keys: " ++ String.intercalate ", " missing)
      else
        match getKey d "resolvedMatches" with
        | some (.arr ms) =>
          if ms.all (fun m =>
              match m with
              | .obj md => hasKey md "staffId" && hasKey md "assignedHours"
              | _ => false) then .ok ()
          else .error "Match missing required fields"
        | some _ => .error "TypeError"
        | none => .ok ()

/-! ## Shared helper lemmas -/

/-- The predicate tested by `conflict_resolver_logic`. -/
def positiveHours (m : SchedMatch) : Bool := 0 < m.assignedHours.getD 0

theorem conflict_resolver_eq_filter (ctx : Context) :
    conflict_resolver_logic ctx = ctx.«matches».filter positiveHours := rfl

theorem audit_calls_length (calls : List (PyDict × String)) :
    ∀ log : List PyDict,
      (audit_logger_calls log calls).length = log.length + calls.length := by
  induction calls with
  | nil => intro log; simp [audit_logger_calls]
  | cons c cs ih =>
    intro log
    simp only [audit_logger_calls]
    rw [ih]
    simp [audit_logger_step]
    omega

theorem audit_calls_getElem_lt (calls : List (PyDict × String)) :
    ∀ (log : List PyDict) (i : Nat), i < log.length →
      (audit_logger_calls log calls)[i]? = log[i]? := by
  induction calls with
  | nil => intro log i _; rfl
  | cons c cs ih =>
    intro log i hi
    simp only [audit_logger_calls]
    rw [ih (audit_logger_step log c.1 c.2) i
      (by simp [audit_logger_step]; omega)]
    simp only [audit_logger_step]
    exact List.getElem?_append_left hi

theorem audit_calls_getElem_new (calls : List (PyDict × String)) :
    ∀ (log : List PyDict) (j : Nat) (ctx : PyDict) (ts : String),
      calls[j]? = some (ctx, ts) →
      (audit_logger_calls log calls)[log.length + j]? =
        some (dictSet (dictShallowCopy ctx) "timestamp" (.prim ts)) := by
  induction calls with
  | nil => intro log j ctx ts h; simp at h
  | cons c cs ih =>
    intro log j ctx ts h
    match j with
    | 0 =>
      simp only [List.getElem?_cons_zero, Option.some.injEq] at h
      subst h
      simp only [audit_logger_calls, Nat.add_zero]
      rw [audit_calls_getElem_lt cs (audit_logger_step log (ctx, ts).1 (ctx, ts).2)
        log.length (by simp [audit_logger_step])]
      simp [audit_logger_step, List.getElem?_append_right]
    | j' + 1 =>
      simp only [List.getElem?_cons_succ] at h
      simp only [audit_logger_calls]
      have hlen : (audit_logger_step log c.1 c.2).length = log.length + 1 := by
        simp [audit_logger_step]
      have := ih (audit_logger_step log c.1 c.2) j' ctx ts h
      rw [hlen] at this
      rw [← this]
      congr 1
      omega

/-! ## C2 -/

/-- C2: `conflict_resolver_logic` is a pure predicate filter on the
match list: a match with `assignedHours ≤ 0` is excluded from
`resolvedMatches`; a match with `assignedHours > 0` is kept unchanged
and with unchanged multiplicity (no rebalancing, no hour splitting). -/
theorem C2_conflict_resolve_filter (ctx : Context) (m : SchedMatch) (h : Int)
    (hm : m.assignedHours = some h) :
    conflict_resolver_logic ctx = ctx.«matches».filter positiveHours ∧
    (h ≤ 0 → m ∉ conflict_resolver_logic ctx) ∧
    (0 < h → (conflict_resolver_logic ctx).count m = ctx.«matches».count m) := by
  refine ⟨rfl, ?_, ?_⟩
  · intro hle hmem
    have hp := List.of_mem_filter (p := positiveHours)
      (by simpa [conflict_resolver_eq_filter] using hmem)
    simp [positiveHours, hm] at hp
    omega
  · intro hpos
    rw [conflict_resolver_eq_filter]
    exact List.count_filter (by simp [positiveHours, hm, hpos])

/-- Witness for C2 on a concrete context. -/
theorem C2_witness :
    let mneg : SchedMatch := { staffId := some "2", assignedHours := some 0 }
    let mpos : SchedMatch := { staffId := some "1", assignedHours := some 5 }
    let ctx : Context := { «matches» := [mpos, mneg] }
    conflict_resolver_logic ctx = ctx.«matches».filter positiveHours ∧
    ((0 : Int) ≤ 0 → mneg ∉ conflict_resolver_logic ctx) ∧
    ((0 : Int) < 5 → (conflict_resolver_logic ctx).count mpos =
      ctx.«matches».count mpos) := by
  refine ⟨(C2_conflict_resolve_filter _ ⟨some "2", none, none, none, some 0, none⟩ 0 rfl).1,
    ?_, ?_⟩
  · exact (C2_conflict_resolve_filter _ { staffId := some "2", assignedHours := some 0 }
      0 rfl).2.1
  · exact (C2_conflict_resolve_filter _ { staffId := some "1", assignedHours := some 5 }
      5 rfl).2.2

/-! ## C3 -/

/-- C3: `shift_logic` (baseline policy) emits exactly one match per
availability entry; the `i`-th match copies the `i`-th entry's
`staffId`/`staffName`, uses its `availableHours` as `assignedHours`, and
attaches the context's date field. -/
theorem C3_shift_match_per_entry (ctx : Context) (i : Nat) (e : AvailEntry) (h : Int)
    (he : ctx.availability[i]? = some e) (hh : e.availableHours = some h) :
    (shift_logic ctx).length = ctx.availability.length ∧
    (shift_logic ctx)[i]? = some
      { staffId := e.staffId, staffName := e.staffName,
        projectId := none, projectName := none,
        assignedHours := some h, date := ctx.date } := by
  constructor
  · simp [shift_logic]
  · simp [shift_logic, he, hh]

/-- Witness for C3 on a concrete context. -/
theorem C3_witness :
    let e : AvailEntry := { staffId := some "1", staffName := some "Alice",
                            assignedHours := some 2, availableHours := some 6 }
    let ctx : Context := { date := some "2025-05-21", availability := [e] }
    (shift_logic ctx).length = ctx.availability.length ∧
    (shift_logic ctx)[0]? = some
      { staffId := some "1", staffName := some "Alice",
        projectId := none, projectName := none,
        assignedHours := some 6, date := some "2025-05-21" } := by
  exact C3_shift_match_per_entry _ 0
    { staffId := some "1", staffName := some "Alice",
      assignedHours := some 2, availableHours := some 6 } 6 rfl rfl

/-! ## C4 -/

/-- C4 counterexample: for a match whose own `date` field
(`"2025-02-02"`) differs from the context's `date` (`"2025-01-01"`),
`notifier_logic` formats the message with the context's date, not the
match's date, so the message is not the template instantiated with the
match's own three field values. -/
theorem C4_counterexample :
    (notifier_logic { date := some "2025-01-01",
                      «matches» := [{ staffId := some "1",
                                      staffName := some "Alice",
                                      assignedHours := some 5,
                                      date := some "2025-02-02" }] }).map
      Notification.message = ["Alice assigned 5 hours on 2025-01-01"] ∧
    ("Alice assigned 5 hours on 2025-01-01" : String) ≠
      "Alice assigned 5 hours on 2025-02-02" := by
  constructor
  · rfl
  · decide

/-- C4 (amended): for every input match carrying `staffName` and
`assignedHours`, the notification message is
`"{staffName} assigned {assignedHours} hours on {date}"` where the name
and hours come from the match but the date is the pipeline context's
`date` value (which coincides with the match's own date only when the
two agree, as for matches produced by the same pipeline run). -/
theorem C4_amended (ctx : Context) (i : Nat) (m : SchedMatch) (nm : String)
    (h : Int) (d : String)
    (hm : ctx.«matches»[i]? = some m) (hn : m.staffName = some nm)
    (hh : m.assignedHours = some h) (hd : ctx.date = some d) :
    ((notifier_logic ctx)[i]?).map Notification.message =
      some (nm ++ " assigned " ++ toString h ++ " hours on " ++ d) := by
  simp [notifier_logic, hm, hn, hh, hd, pyShowS, pyShowI]

/-- Witness for C4 (amended) on a concrete context. -/
theorem C4_witness :
    ((notifier_logic { date := some "2025-01-01",
                       «matches» := [{ staffId := some "1",
                                       staffName := some "Alice",
                                       assignedHours := some 5,
                                       date := some "2025-02-02" }] })[0]?).map
      Notification.message =
      some ("Alice" ++ " assigned " ++ toString (5 : Int) ++ " hours on " ++
        "2025-01-01") :=
  C4_amended _ 0 { staffId := some "1", staffName := some "Alice",
                   assignedHours := some 5, date := some "2025-02-02" }
    "Alice" 5 "2025-01-01" rfl rfl rfl rfl

/-! ## C5 -/

/-- C5 counterexample: the audit entry is `dict(context)`, a shallow
copy, so the nested `matches` list object is shared between the live
context and the archived entry; an in-place append through the live
context changes what the historical entry shows, contradicting
"archived by value: later mutation of nested collections cannot alter a
historical audit entry". -/
theorem C5_counterexample :
    let ctx : PyDict := [("matches", PVal.listRef 0)]
    let h0 : PyHeap := [[PVal.prim "match1"]]
    let log1 := audit_logger_step [] ctx "2025-05-21T00:00:00Z"
    let entry := log1.headD []
    let h1 := heapSet h0 0 (heapGet h0 0 ++ [PVal.prim "match2"])
    derefKey h1 entry "matches" ≠ derefKey h0 entry "matches" := by decide

/-- C5 (amended): the audit log is append-only — N calls append exactly
N entries in call order, an earlier entry (its top-level bindings) is
never rewritten by later calls, and each entry is
`dict(context)` plus the timestamp; but the snapshot is shallow, so
nested collections stay shared by reference (the counterexample shows an
in-place mutation reaching a historical entry). -/
theorem C5_amended (log : List PyDict) (calls : List (PyDict × String))
    (i j : Nat) (ctx : PyDict) (ts : String)
    (hi : i < log.length) (hj : calls[j]? = some (ctx, ts)) :
    (audit_logger_calls log calls).length = log.length + calls.length ∧
    (audit_logger_calls log calls)[i]? = log[i]? ∧
    (audit_logger_calls log calls)[log.length + j]? =
      some (dictSet (dictShallowCopy ctx) "timestamp" (.prim ts)) :=
  ⟨audit_calls_length calls log,
    audit_calls_getElem_lt calls log i hi,
    audit_calls_getElem_new calls log j ctx ts hj⟩

/-- Witness for C5 (amended) on concrete calls. -/
theorem C5_witness :
    let log0 : List PyDict := [[("step", PVal.prim "0")]]
    let calls : List (PyDict × String) :=
      [([("step", PVal.prim "1")], "t1"), ([("step", PVal.prim "2")], "t2")]
    (audit_logger_calls log0 calls).length = log0.length + calls.length ∧
    (audit_logger_calls log0 calls)[0]? = log0[0]? ∧
    (audit_logger_calls log0 calls)[log0.length + 1]? =
      some (dictSet (dictShallowCopy [("step", PVal.prim "2")]) "timestamp"
        (.prim "t2")) :=
  C5_amended [[("step", PVal.prim "0")]]
    [([("step", PVal.prim "1")], "t1"), ([("step", PVal.prim "2")], "t2")]
    0 1 [("step", PVal.prim "2")] "t2" (by decide) (by decide)

/-! ## C1 -/

/-- C1 counterexample: in the command-mode pipeline
(`enhanced_stub_orchestrator`), an availability entry with 0 available
hours yields a match that fails the positive-hours filter
(`resolvedMatches = []`) and yet gets a notification — so Notify does
not consume matches that have already passed the filter: the executed
order is ShiftMatch, Notify, ConflictResolve, not the claimed ShiftMatch,
ConflictResolve, Notify. -/
theorem C1_counterexample :
    let b : Backend :=
      ⟨fun _ => [{ staffId := some "1", availableHours := some 0 }], [], []⟩
    let payload : OrchestrationInput :=
      { date := some "2025-05-21", mode := some "command" }
    let r := (enhanced_stub_orchestrator b 2025 "2025-01-01" "T0" [] payload).1
    r.resolvedMatches = [] ∧
    r.notifications.map Notification.message =
      ["1 assigned 0 hours on 2025-05-21"] := by
  exact ⟨rfl, rfl⟩

/-- C1 (amended): the command-mode stage pipeline executes ShiftMatch,
then Notify, then ConflictResolve, then AuditLog; Notify therefore
consumes the unfiltered match list — for every backend, clock and
payload there is one notification per match (filtered or not),
`resolvedMatches` is the positive-hours filter of those same matches,
and the audit append happens last, archiving the fully extended
context. -/
theorem C1_amended (b : Backend) (year : Nat) (todayStr ts : String)
    (log : List AuditEntry) (payload : OrchestrationInput) :
    (enhanced_stub_orchestrator b year todayStr ts log payload).1.notifications.length =
      (enhanced_stub_orchestrator b year todayStr ts log payload).1.«matches».length ∧
    (enhanced_stub_orchestrator b year todayStr ts log payload).1.resolvedMatches =
      ((enhanced_stub_orchestrator b year todayStr ts log payload).1.«matches».filter
        positiveHours) ∧
    (enhanced_stub_orchestrator b year todayStr ts log payload).2 =
      log ++ [{ ctx := (enhanced_stub_orchestrator b year todayStr ts log payload).1,
                timestamp := ts }] := by
  refine ⟨?_, rfl, rfl⟩
  simp [enhanced_stub_orchestrator, notifier_logic]

/-! ## C6 -/

theorem process_loop_spec (create : Nat → Except String Unit) :
    ∀ (ms : List SchedMatch) (k : Nat),
      (process_assignments_loop create ms k).1 =
        (ms.filter writer_valid).map writer_data ∧
      (process_assignments_loop create ms k).2 =
        ((List.range (ms.filter writer_valid).length).map (fun i => i + k)).countP
          (fun i => (create i).isOk) := by
  intro ms
  induction ms with
  | nil => intro k; simp [process_assignments_loop]
  | cons m rest ih =>
    intro k
    by_cases hv : writer_valid m
    · constructor
      · simp [process_assignments_loop, hv, List.filter_cons, (ih (k + 1)).1]
      · have hcreated : (match create k with | .ok _ => 1 | .error _ => 0) =
            if (create k).isOk then 1 else 0 := by
          cases create k <;> rfl
        simp only [process_assignments_loop, hv, if_true]
        rw [(ih (k + 1)).2]
        simp only [List.filter_cons, hv, if_true, List.length_cons,
          List.range_succ_eq_map, List.map_cons, List.map_map, List.countP_cons,
          Nat.zero_add]
        have hfun : ((fun i => i + k) ∘ Nat.succ) = fun i => i + (k + 1) := by
          funext i
          simp [Function.comp]
          omega
        rw [hfun, hcreated]
        cases hok : (create k).isOk
        all_goals simp [hok]
        all_goals omega
    · simp [process_assignments_loop, hv, List.filter_cons, ih k]

/-- C6: for every backend-result oracle `create` and writer input, the
batch of `POST /api/assignments` payloads issued by
`process_assignments` is exactly the valid matches (those with truthy
`staffId`, `projectId`, `date` and positive hours) in order — invalid
matches are skipped individually, and the batch does not depend on
`create`, so a creation failure at any point does not abort the
remaining matches; `assignments_created` counts exactly the successful
calls.  The theorem holds for arbitrary `create`, including oracles that
fail every call: the per-match exception is caught and the function
still returns normally with the full batch attempted. -/
theorem C6_assignment_writer (create : Nat → Except String Unit) (r : WriterInput) :
    (process_assignments create r).1 =
      ((writer_matches r).filter writer_valid).map writer_data ∧
    (process_assignments create r).2 =
      (List.range ((writer_matches r).filter writer_valid).length).countP
        (fun k => (create k).isOk) := by
  have h := process_loop_spec create (writer_matches r) 0
  refine ⟨h.1, ?_⟩
  show (process_assignments_loop create (writer_matches r) 0).2 = _
  rw [h.2]
  congr 1
  simp

/-! ## Date-parsing helper lemmas -/

theorem parse_date_p1_valid (year : Nat) (q : String) (caps : Caps) (m : Nat)
    (hs : reSearch simpleDateP1 q = some caps)
    (hm : monthNum (pyLower ((cap caps 2).getD "")) = some m)
    (hday : 1 ≤ natOfDigits ((cap caps 1).getD "") ∧
      natOfDigits ((cap caps 1).getD "") ≤ 31) :
    parse_scheduling_date year q =
      some (fmtDate
        (match cap caps 3 with | some ys => natOfDigits ys | none => year)
        m (natOfDigits ((cap caps 1).getD ""))) := by
  simp only [parse_scheduling_date, hs, hm, if_pos hday]

theorem parse_date_p1_invalid_day (year : Nat) (q : String) (caps : Caps)
    (hs : reSearch simpleDateP1 q = some caps)
    (hday : ¬(1 ≤ natOfDigits ((cap caps 1).getD "") ∧
      natOfDigits ((cap caps 1).getD "") ≤ 31))
    (hs2 : reSearch simpleDateP2 q = none) :
    parse_scheduling_date year q = none := by
  simp only [parse_scheduling_date, hs, hs2]
  cases hmn : monthNum (pyLower ((cap caps 2).getD "")) with
  | none => rfl
  | some m => simp [if_neg hday]

theorem parse_date_no_match (year : Nat) (q : String)
    (hs1 : reSearch simpleDateP1 q = none)
    (hs2 : reSearch simpleDateP2 q = none) :
    parse_scheduling_date year q = none := by
  simp only [parse_scheduling_date, hs1, hs2]

/-! ## C7 -/

/-- C7 counterexample: `parse_booking_command`'s date extraction, on a
query whose first day/word occurrence has an invalid month name
(`"15 Foober"`), does not leave the date null: it substitutes
`payload.date or datetime.now()` (here the current date
`"2026-02-03"`), contradicting "silently drops the date ... no
substitute date filled in". -/
theorem C7_counterexample :
    reSearch bookingDateP "book Alice for 15 Foober" =
      some [(2, "Foober"), (1, "15")] ∧
    strptimeMonth (pyCapitalize "Foober") = none ∧
    (parse_booking_extract none "2026-02-03" 2026
      "book Alice for 15 Foober").date = "2026-02-03" := by
  exact ⟨rfl, rfl, rfl⟩

/-- C7 (amended): in `app_simple.parse_scheduling_command` the claim
holds — the first day-then-month occurrence is used (the month-then-day
pattern serving as fallback), a day outside 1–31 is silently dropped so
the date stays null with no exception, and an absent year group defaults
to the current calendar year; `app.parse_booking_command`, however, does
not keep the date null: on an invalid month name it substitutes
`payload.date or` the current date. -/
theorem C7_amended (year : Nat)
    (qa : String) (capsa : Caps) (qb : String)
    (qc : String) (capsc : Caps) (mc : Nat)
    (pd : Option String) (today : String) (qd : String) (capsd : Caps) :
    (reSearch simpleDateP1 qa = some capsa →
      ¬(1 ≤ natOfDigits ((cap capsa 1).getD "") ∧
        natOfDigits ((cap capsa 1).getD "") ≤ 31) →
      reSearch simpleDateP2 qa = none →
      parse_scheduling_date year qa = none) ∧
    (reSearch simpleDateP1 qb = none → reSearch simpleDateP2 qb = none →
      parse_scheduling_date year qb = none) ∧
    (reSearch simpleDateP1 qc = some capsc →
      monthNum (pyLower ((cap capsc 2).getD "")) = some mc →
      cap capsc 3 = none →
      1 ≤ natOfDigits ((cap capsc 1).getD "") →
      natOfDigits ((cap capsc 1).getD "") ≤ 31 →
      parse_scheduling_date year qc =
        some (fmtDate year mc (natOfDigits ((cap capsc 1).getD "")))) ∧
    (reSearch bookingDateP qd = some capsd →
      strptimeMonth (pyCapitalize ((cap capsd 2).getD "")) = none →
      (parse_booking_extract pd today year qd).date = pyOrS pd today) := by
  refine ⟨?_, ?_, ?_, ?_⟩
  · intro hs hday hs2
    exact parse_date_p1_invalid_day year qa capsa hs hday hs2
  · intro hs1 hs2
    exact parse_date_no_match year qb hs1 hs2
  · intro hs hm h3 h1 h31
    have := parse_date_p1_valid year qc capsc mc hs hm ⟨h1, h31⟩
    rw [h3] at this
    exact this
  · intro hs hm
    simp only [parse_booking_extract, hs, hm]

/-- Witness for C7 (amended) on concrete queries. -/
theorem C7_witness :
    parse_scheduling_date 2026 "32nd May party" = none ∧
    parse_scheduling_date 2026 "just words" = none ∧
    parse_scheduling_date 2026 "21st May" = some (fmtDate 2026 5 21) ∧
    (parse_booking_extract none "2026-02-03" 2026
      "book Alice for 15 Foober").date = pyOrS none "2026-02-03" := by
  have h := C7_amended 2026 "32nd May party" [(2, "May"), (1, "32")] "just words"
    "21st May" [(2, "May"), (1, "21")] 5 none "2026-02-03"
    "book Alice for 15 Foober" [(2, "Foober"), (1, "15")]
  exact ⟨h.1 rfl (by decide) rfl, h.2.1 rfl rfl,
    h.2.2.1 rfl rfl rfl (by decide) (by decide), h.2.2.2 rfl rfl⟩

/-! ## C8 -/

/-- C8 counterexample: the inline staff resolution of
`parse_booking_command` has no exact-match pass — for candidate
`"Alex"` against `[Alexandra, Alex]` it returns the earlier
substring-only hit `Alexandra` even though the exactly matching entity
`Alex` exists later in the list (while `find_staff_by_name`, which does
try the exact pass first, returns `Alex`). -/
theorem C8_counterexample :
    booking_resolve_staff "Alex" [⟨"1", "Alexandra", none⟩, ⟨"2", "Alex", none⟩] =
      some ⟨"1", "Alexandra", none⟩ ∧
    pyLower (StaffRec.name ⟨"2", "Alex", none⟩) = pyLower "Alex" ∧
    find_staff_by_name "Alex" [⟨"1", "Alexandra", none⟩, ⟨"2", "Alex", none⟩] =
      some ⟨"2", "Alex", none⟩ := by
  exact ⟨rfl, rfl, rfl⟩

/-- C8 (amended): `find_staff_by_name` and `find_project_by_name`
(`app_simple.py`) do run the case-insensitive exact pass over the whole
list before any substring matching, so an exactly matching entity wins
over earlier substring-only matches; the inline resolution of
`parse_booking_command` (`app.py`) instead returns the first
substring match in list order, with no exact pass. -/
theorem C8_amended (nm : String) (l : List StaffRec) (s : StaffRec)
    (nmb : String) (lb : List StaffRec)
    (nmp : String) (pl : List ProjectRec) (p : ProjectRec)
    (hs : l.find? (fun t => pyLower t.name == pyLower nm) = some s)
    (hb : lb.find? (fun t => pyLower t.name == pyLower nmb) = none)
    (hp : pl.find? (fun t => pyLower t.name == pyLower nmp) = some p) :
    find_staff_by_name nm l = some s ∧
    find_staff_by_name nmb lb = lb.find? (fun t =>
      isSub (pyLower nmb) (pyLower t.name) || isSub (pyLower t.name) (pyLower nmb)) ∧
    find_project_by_name nmp pl = some p ∧
    booking_resolve_staff nm l = l.find? (fun t =>
      isSub (pyLower nm) (pyLower t.name) || isSub (pyLower t.name) (pyLower nm)) := by
  refine ⟨?_, ?_, ?_, rfl⟩
  · simp [find_staff_by_name, hs]
  · simp [find_staff_by_name, hb]
  · simp [find_project_by_name, hp]

/-- Witness for C8 (amended) on concrete entity lists. -/
theorem C8_witness :
    find_staff_by_name "Alex" [⟨"1", "Alexandra", none⟩, ⟨"2", "Alex", none⟩] =
      some ⟨"2", "Alex", none⟩ ∧
    find_staff_by_name "Zed" [⟨"1", "Alexandra", none⟩] =
      [(⟨"1", "Alexandra", none⟩ : StaffRec)].find? (fun t =>
        isSub (pyLower "Zed") (pyLower t.name) ||
          isSub (pyLower t.name) (pyLower "Zed")) ∧
    find_project_by_name "Vanguard" [⟨"p1", "Vanguard"⟩] = some ⟨"p1", "Vanguard"⟩ ∧
    booking_resolve_staff "Alex" [⟨"1", "Alexandra", none⟩, ⟨"2", "Alex", none⟩] =
      [(⟨"1", "Alexandra", none⟩ : StaffRec),
        ⟨"2", "Alex", none⟩].find? (fun t =>
        isSub (pyLower "Alex") (pyLower t.name) ||
          isSub (pyLower t.name) (pyLower "Alex")) :=
  C8_amended "Alex" [⟨"1", "Alexandra", none⟩, ⟨"2", "Alex", none⟩]
    ⟨"2", "Alex", none⟩ "Zed" [⟨"1", "Alexandra", none⟩]
    "Vanguard" [⟨"p1", "Vanguard"⟩] ⟨"p1", "Vanguard"⟩
    (by decide) (by decide) (by decide)

/-! ## C9 -/

/-- The spec's concrete example command. -/
def exampleQuery : String :=
  "can you book 8 hrs for Merrin for Youssef Sharma on 21st May?"

/-- C9 counterexample: `parse_booking_command` (`app.py`), on the
example input, does not yield the 21 May date — its date regex first
hits `"8 hrs"`, whose month word is invalid, so the date falls back to
the current date — and its project extraction yields no candidates at
all, so `"Merrin"` is not among them (with current date `"2026-02-03"`
and current year 2026). -/
theorem C9_counterexample :
    (parse_booking_extract none "2026-02-03" 2026 exampleQuery).date =
      "2026-02-03" ∧
    (parse_booking_extract none "2026-02-03" 2026 exampleQuery).date ≠
      "2026-05-21" ∧
    (parse_booking_extract none "2026-02-03" 2026 exampleQuery).projectNames = [] ∧
    (parse_booking_extract none "2026-02-03" 2026 exampleQuery).hoursList = [8] ∧
    (parse_booking_extract none "2026-02-03" 2026 exampleQuery).staffNames =
      ["Merrin", "Youssef Sharma", "May"] := by
  refine ⟨rfl, by decide, rfl, rfl, rfl⟩

/-- C9 (amended): the claim holds of `parse_scheduling_command`
(`app_simple.py`): on the example input it yields hours 8, the date
`"<current-year>-05-21"`, `"Youssef Sharma"` among the staff-name
candidates and `"Merrin"` among the project-name candidates;
`parse_booking_command` (`app.py`) instead yields the fallback date and
no project candidates (see the counterexample). -/
theorem C9_amended (year : Nat) :
    (parse_scheduling_command year exampleQuery).hours = 8 ∧
    (parse_scheduling_command year exampleQuery).date = some (fmtDate year 5 21) ∧
    "Youssef Sharma" ∈ (parse_scheduling_command year exampleQuery).staffNames ∧
    "Merrin" ∈ (parse_scheduling_command year exampleQuery).projectNames := by
  refine ⟨rfl, ?_, ?_, ?_⟩
  · show parse_scheduling_date year exampleQuery = some (fmtDate year 5 21)
    exact parse_date_p1_valid year exampleQuery [(2, "May"), (1, "21")] 5
      rfl rfl (by decide)
  · show "Youssef Sharma" ∈ parse_scheduling_staff exampleQuery
    decide
  · show "Merrin" ∈ parse_scheduling_projects exampleQuery
    decide

/-! ## C10 -/

/-- C10: `validate_pipeline_output` accepts, with no shape check, every
bare-string result and every dict containing an `error` key, and waives
the five required command/cron keys for any dict containing `USE_CREW`,
`queryIntent`, `data` or `parsed`: in all those cases it returns without
raising, so such payloads (including error payloads) leave the system as
successful responses in command or cron mode. -/
theorem C10_validator_waivers (s : String) (d d2 : List (String × JVal)) (k : String)
    (hk : k ∈ (["USE_CREW", "queryIntent", "data", "parsed"] : List String))
    (hkd : hasKey d2 k = true) (he : hasKey d "error" = true) :
    validate_pipeline_output (.str s) = .ok () ∧
    validate_pipeline_output (.obj d) = .ok () ∧
    validate_pipeline_output (.obj d2) = .ok () := by
  refine ⟨rfl, ?_, ?_⟩
  · simp [validate_pipeline_output, he]
  · have hcrew : (hasKey d2 "USE_CREW" || hasKey d2 "queryIntent" ||
        hasKey d2 "data" || hasKey d2 "parsed") = true := by
      fin_cases hk <;> simp_all
    by_cases h1 : hasKey d2 "error" <;>
      by_cases h2 : (hasKey d2 "response" || hasKey d2 "content") = true <;>
      simp [validate_pipeline_output, h1, h2, hcrew]

/-- Witness for C10 on concrete payloads. -/
theorem C10_witness :
    validate_pipeline_output (.str "done") = .ok () ∧
    validate_pipeline_output (.obj [("error", .str "nope")]) = .ok () ∧
    validate_pipeline_output (.obj [("parsed", .null)]) = .ok () :=
  C10_validator_waivers "done" [("error", .str "nope")] [("parsed", .null)]
    "parsed" (by decide) (by decide) (by decide)

end StaffScheduler

